import Mathlib

/-!
Verification development for the `thatweatherapp` browser weather dashboard
(`src/script.js`).  The JavaScript source is shallowly embedded: JS numbers
are modelled as rationals, JS strings as Lean strings, the DOM areas the
script writes to as an explicit `Dom` record, the module-level mutable
globals (`UNITS`, `currentWeatherData`) as fields of an `AppState` record,
and every outbound `fetch` as an entry of an effect log produced alongside
the new state.  Responses of the four HTTP APIs are supplied by an `Oracle`
record, so each async control flow of the script becomes a pure function
from the oracle and the current state to the next state plus a list of
issued requests.
-/

set_option maxHeartbeats 1000000

namespace WeatherApp

/-- Embeds `toFahrenheit` of `script.js`: `(c * 9 / 5) + 32`. -/
def toFahrenheit (c : ℚ) : ℚ := (c * 9 / 5) + 32

/-- Embeds `toMph` of `script.js`: `kmh * 0.621371`. -/
def toMph (kmh : ℚ) : ℚ := kmh * 0.621371

/-- Embeds `toInches` of `script.js`: `mm * 0.0393701`. -/
def toInches (mm : ℚ) : ℚ := mm * 0.0393701

/-- Embeds JavaScript `Math.round`: round half toward positive infinity. -/
def jsRound (x : ℚ) : ℤ := ⌊x + 1 / 2⌋

/-- Embeds `getWeatherIconClass` of `script.js`: each `[..].includes(code)`
test becomes list membership, with the same default branch. -/
def getWeatherIconClass (code : ℤ) : String :=
  if code ∈ ([0] : List ℤ) then "sunny"
  else if code ∈ ([1, 2] : List ℤ) then "partCloud"
  else if code ∈ ([3] : List ℤ) then "cloudy"
  else if code ∈ ([45, 48] : List ℤ) then "foggy"
  else if code ∈ ([51, 53, 55, 56, 57] : List ℤ) then "rainy"
  else if code ∈ ([61, 63, 65, 66, 67, 80, 81, 82] : List ℤ) then "stormy"
  else if code ∈ ([71, 73, 75, 77, 85, 86] : List ℤ) then "snowy"
  else if code ∈ ([95, 96, 99] : List ℤ) then "windy"
  else "partCloud"

/-- All weather codes explicitly listed by `getWeatherIconClass`. -/
def listedWeatherCodes : List ℤ :=
  [0, 1, 2, 3, 45, 48, 51, 53, 55, 56, 57, 61, 63, 65, 66, 67, 80, 81, 82,
   71, 73, 75, 77, 85, 86, 95, 96, 99]

/-- Left-trim of a character list: drops leading whitespace. -/
def trimLeftL (l : List Char) : List Char := l.dropWhile Char.isWhitespace

/-- Right-trim of a character list: drops trailing whitespace. -/
def trimRightL (l : List Char) : List Char :=
  (l.reverse.dropWhile Char.isWhitespace).reverse

/-- Embeds JavaScript `String.prototype.trim` (ASCII whitespace model). -/
def jsTrim (s : String) : String := ⟨trimRightL (trimLeftL s.data)⟩

/-- Embeds the `.replace(/,$/, '')` call of `reverseGeocode`: removes one
trailing comma when present. -/
def dropTrailingComma (s : String) : String :=
  if s.data.getLast? = some ',' then ⟨s.data.dropLast⟩ else s

/-- Embeds the JS `a || b` idiom on nullable strings: `null` and the empty
string are falsy. -/
def jsOr (a : Option String) (b : String) : String :=
  match a with
  | some s => if s = "" then b else s
  | none => b

/-- Reverse-geocoding response body, cf. `{city, locality, countryName}`
(all optional) in the spec's external-interface section. -/
structure GeoData where
  city : Option String
  locality : Option String
  countryName : Option String
deriving Repr, DecidableEq

/-- The display name built by `reverseGeocode`'s success path:
`` `${geoData.city || geoData.locality || "Unknown Location"}, ${geoData.countryName || ""}`.trim().replace(/,$/, '') ``. -/
def resolveGeoName (g : GeoData) : String :=
  dropTrailingComma (jsTrim
    (jsOr g.city (jsOr g.locality "Unknown Location") ++ ", " ++
      jsOr g.countryName ""))

/-- Comparator for C4, following the claim's words: pick city name, else
locality name, else the sentinel; append the country after a comma when
available, and with no country keep just the base name (trailing comma
trimmed). -/
def claimedGeoName (g : GeoData) : String :=
  let base := jsOr g.city (jsOr g.locality "Unknown Location")
  let country := jsOr g.countryName ""
  if country = "" then base else base ++ ", " ++ country

/-- The string's first character, if any, is not whitespace. -/
def headNotWs (s : String) : Bool :=
  match s.data.head? with
  | some c => !c.isWhitespace
  | none => true

/-- The string's last character, if any, is neither whitespace nor a
comma. -/
def lastClean (s : String) : Bool :=
  match s.data.getLast? with
  | some c => !c.isWhitespace && c != ','
  | none => true

/-- Outbound effects of the script: one constructor per HTTP API endpoint
(`API_URLS`) plus the blocking `alert` dialogs of `handleSearch`. -/
inductive Eff where
  | weatherReq (lat lon : ℚ)
  | ipReq
  | geoReq (lat lon : ℚ)
  | searchReq (name : String) (count : ℕ)
  | alert (msg : String)
deriving Repr, DecidableEq

/-- Embeds `reverseGeocode`: issues one geocoding request; a failed call
(rejected fetch or failed JSON decode) is caught and yields the sentinel. -/
def reverseGeocode (geo : Except Unit GeoData) (lat lon : ℚ) :
    String × List Eff :=
  match geo with
  | .error _ => ("Unknown Location", [.geoReq lat lon])
  | .ok g => (resolveGeoName g, [.geoReq lat lon])

/-- The module-level `UNITS` global of `script.js`. -/
structure Units where
  TEMPERATURE : String
  WIND : String
  PRECIPITATION : String
deriving Repr, DecidableEq

/-- Startup value of `UNITS`. -/
def initialUnits : Units := ⟨"celsius", "kmh", "mm"⟩

/-- The `current` block of the forecast response. -/
structure CurrentW where
  time : String
  temperature_2m : ℚ
  apparent_temperature : ℚ
  relative_humidity_2m : ℚ
  wind_speed_10m : ℚ
  precipitation : ℚ
  weather_code : ℤ
deriving Repr, DecidableEq

/-- The `daily` block of the forecast response (parallel arrays). -/
structure DailyW where
  time : List String
  temperature_2m_max : List ℚ
  temperature_2m_min : List ℚ
  weather_code : List ℤ
deriving Repr, DecidableEq

/-- The `hourly` block of the forecast response (parallel arrays). -/
structure HourlyW where
  time : List String
  temperature_2m : List ℚ
  weather_code : List ℤ
deriving Repr, DecidableEq

/-- A full forecast payload: the WeatherSnapshot of the spec, what
`currentWeatherData` stores. -/
structure WeatherData where
  current : CurrentW
  daily : DailyW
  hourly : HourlyW
deriving Repr, DecidableEq

/-- What `renderCurrentWeather` writes into the metrics cards: rounded
feels-like temperature, raw humidity, converted wind and precipitation
values with their unit labels. -/
structure MetricsView where
  feelsLike : ℤ
  humidity : ℚ
  windVal : ℚ
  windUnit : String
  precVal : ℚ
  precUnit : String
deriving Repr, DecidableEq

/-- One card of the daily forecast strip (raw time kept as the source
string; locale date formatting is presentation, out of model). -/
structure DailyCard where
  timeRaw : String
  minTemp : ℤ
  maxTemp : ℤ
  iconClass : String
deriving Repr, DecidableEq

/-- One card of the hourly forecast strip. -/
structure HourCard where
  timeRaw : String
  temp : ℤ
  iconClass : String
deriving Repr, DecidableEq

/-- One search/geocoding result, cf. `{name, country, latitude, longitude}`. -/
structure Candidate where
  name : String
  country : String
  latitude : ℚ
  longitude : ℚ
deriving Repr, DecidableEq

/-- Active-value indicator of the unit dropdown (which option carries the
`active` class, per unit group). -/
structure Indicator where
  temp : String
  wind : String
  prec : String
deriving Repr, DecidableEq

/-- The DOM areas `script.js` writes to.  `metricsArea` is either an
error/notice message (`innerHTML` replaced by a `<p>` text) or the
rendered metrics cards. -/
structure Dom where
  metricsArea : String ⊕ MetricsView
  locationText : String
  currentTempText : String
  dailyCards : List DailyCard
  hourlyCards : List HourCard
  suggestions : List Candidate
  searchInputValue : String
  indicator : Indicator
deriving Repr, DecidableEq

/-- Application state: the `UNITS` and `currentWeatherData` globals plus
the DOM. -/
structure AppState where
  UNITS : Units
  currentWeatherData : Option WeatherData
  dom : Dom
deriving Repr, DecidableEq

/-- An HTTP response: `ok` status flag and the result of `.json()`
(`.error` = failed decode / rejected body). -/
structure HttpResp (α : Type) where
  ok : Bool
  json : Except Unit α
deriving Repr

/-- IP-lookup response body, cf. `{latitude, longitude, city}`. -/
structure IpData where
  latitude : ℚ
  longitude : ℚ
  city : Option String
deriving Repr, DecidableEq

/-- Responses the network would supply to each endpoint; `.error ()` is a
rejected fetch (or a rejected body read, where noted). -/
structure Oracle where
  weather : Except Unit (HttpResp WeatherData)
  ip : Except Unit IpData
  geo : Except Unit GeoData
  search : String → ℕ → Except Unit (Option (List Candidate))

/-- JS falsiness of a nullable string: `null`/absent and `""` are falsy. -/
def strFalsy : Option String → Bool
  | none => true
  | some s => s == ""

/-- The ternary `UNITS.TEMPERATURE === 'fahrenheit' ? toFahrenheit : (t) => t`
used by the render functions. -/
def convertTemp (u : Units) (t : ℚ) : ℚ :=
  if u.TEMPERATURE = "fahrenheit" then toFahrenheit t else t

/-- Embeds `renderCurrentWeather`: converts the current values per `UNITS`
and writes the metrics cards, the location text and the big temperature
readout. -/
def renderCurrentWeather (u : Units) (current : CurrentW) (city : String)
    (d : Dom) : Dom :=
  let currentTempVal := if u.TEMPERATURE = "fahrenheit" then
    toFahrenheit current.temperature_2m else current.temperature_2m
  let apparentTempVal := if u.TEMPERATURE = "fahrenheit" then
    toFahrenheit current.apparent_temperature else current.apparent_temperature
  let windSpeedVal := if u.WIND = "mph" then
    toMph current.wind_speed_10m else current.wind_speed_10m
  let precipitationVal := if u.PRECIPITATION = "inches" then
    toInches current.precipitation else current.precipitation
  let windUnit := if u.WIND = "mph" then "mph" else "km/h"
  let precUnit := if u.PRECIPITATION = "inches" then "in" else "mm"
  { d with
    metricsArea := Sum.inr
      { feelsLike := jsRound apparentTempVal
        humidity := current.relative_humidity_2m
        windVal := windSpeedVal
        windUnit := windUnit
        precVal := precipitationVal
        precUnit := precUnit }
    locationText := city
    currentTempText := toString (jsRound currentTempVal) ++ "°" }

/-- Embeds the card construction loop of `renderDailyForecast`. -/
def dailyCardsOf (u : Units) (daily : DailyW) : List DailyCard :=
  (List.range daily.time.length).map fun i =>
    { timeRaw := daily.time.getD i ""
      minTemp := jsRound (convertTemp u (daily.temperature_2m_min.getD i 0))
      maxTemp := jsRound (convertTemp u (daily.temperature_2m_max.getD i 0))
      iconClass := getWeatherIconClass (daily.weather_code.getD i 0) }

/-- Embeds the card construction loop of `renderHourlyForecast`:
`limit = Math.min(24, hourly.time.length)` cards. -/
def hourlyCardsOf (u : Units) (hourly : HourlyW) : List HourCard :=
  (List.range (min 24 hourly.time.length)).map fun i =>
    { timeRaw := hourly.time.getD i ""
      temp := jsRound (convertTemp u (hourly.temperature_2m.getD i 0))
      iconClass := getWeatherIconClass (hourly.weather_code.getD i 0) }

/-- Embeds the `renderWeather` wrapper: current section, then daily strip,
then hourly strip. -/
def renderWeather (u : Units) (current : CurrentW) (data : WeatherData)
    (city : String) (d : Dom) : Dom :=
  let d1 := renderCurrentWeather u current city d
  { d1 with
    dailyCards := dailyCardsOf u data.daily
    hourlyCards := hourlyCardsOf u data.hourly }

/-- The `switch (type)` of `setUnit` picking the `UNITS` key. -/
def stateKey (type : String) : Option String :=
  if type = "temp" then some "TEMPERATURE"
  else if type = "wind" then some "WIND"
  else if type = "prec" then some "PRECIPITATION"
  else none

/-- The assignment `UNITS[stateKey] = value`. -/
def setUnitsField (u : Units) (key value : String) : Units :=
  if key = "TEMPERATURE" then { u with TEMPERATURE := value }
  else if key = "WIND" then { u with WIND := value }
  else if key = "PRECIPITATION" then { u with PRECIPITATION := value }
  else u

/-- Embeds `updateUnitDropdownUI`: marks `value` as the active option of
the `type` group. -/
def updateUnitDropdownUI (type value : String) (ind : Indicator) :
    Indicator :=
  if type = "temp" then { ind with temp := value }
  else if type = "wind" then { ind with wind := value }
  else if type = "prec" then { ind with prec := value }
  else ind

/-- Error text of `fetchWeather`'s catch block. -/
def weatherFailMsg : String := "Failed to load weather data 😔"

/-- Error text of `getLocationFromIP`'s catch block. -/
def locationFailMsg : String :=
  "Unable to retrieve location. Please check your network or use the search bar. 😔"

/-- Embeds `setUnit`: updates the preference and the dropdown indicator,
then re-renders from the held snapshot when one exists.  The effect list
is the (empty) set of network requests the function issues. -/
def setUnit (type value : String) (s : AppState) : AppState × List Eff :=
  match stateKey type with
  | none => (s, [])
  | some key =>
    let s1 : AppState :=
      { s with
        UNITS := setUnitsField s.UNITS key value
        dom := { s.dom with
          indicator := updateUnitDropdownUI type value s.dom.indicator } }
    match s1.currentWeatherData with
    | some data =>
      let city := s1.dom.locationText
      ({ s1 with
        dom := renderWeather s1.UNITS data.current data city s1.dom }, [])
    | none => (s1, [])

/-- Embeds `fetchWeather`: one forecast request; non-ok status or a
rejected fetch/body throws into the catch block, which shows the error
text; on success the payload is stored, the name is reverse-geocoded
when the passed name is falsy, and everything is rendered. -/
def fetchWeather (o : Oracle) (lat lon : ℚ) (cityName : Option String)
    (s : AppState) : AppState × List Eff :=
  match o.weather with
  | .error _ =>
    ({ s with dom := { s.dom with metricsArea := Sum.inl weatherFailMsg } },
      [.weatherReq lat lon])
  | .ok resp =>
    if resp.ok = false then
      ({ s with dom := { s.dom with metricsArea := Sum.inl weatherFailMsg } },
        [.weatherReq lat lon])
    else
      match resp.json with
      | .error _ =>
        ({ s with dom := { s.dom with metricsArea := Sum.inl weatherFailMsg } },
          [.weatherReq lat lon])
      | .ok data =>
        let s1 := { s with currentWeatherData := some data }
        if strFalsy cityName then
          let p := reverseGeocode o.geo lat lon
          ({ s1 with
            dom := renderWeather s1.UNITS data.current data p.1 s1.dom },
            .weatherReq lat lon :: p.2)
        else
          ({ s1 with
            dom := renderWeather s1.UNITS data.current data
              (cityName.getD "") s1.dom },
            [.weatherReq lat lon])

/-- Embeds `getLocationFromIP`: one IP-lookup request; on success the
coordinates and city go straight to `fetchWeather`; the catch block shows
the location-failure text. -/
def getLocationFromIP (o : Oracle) (s : AppState) : AppState × List Eff :=
  match o.ip with
  | .error _ =>
    ({ s with dom := { s.dom with metricsArea := Sum.inl locationFailMsg } },
      [.ipReq])
  | .ok d =>
    let r := fetchWeather o d.latitude d.longitude d.city s
    (r.1, .ipReq :: r.2)

/-- Outcome of the browser geolocation attempt: capability missing,
capability-level failure (permission denied / position unavailable), or a
position. -/
inductive GeoOutcome where
  | unsupported
  | permissionFailure
  | position (lat lon : ℚ)
deriving Repr, DecidableEq

/-- Embeds `getUserLocation`: geolocation success feeds `fetchWeather`
with no name (via `handleLocationSuccess`); either failure mode falls
back to `getLocationFromIP`. -/
def getUserLocation (o : Oracle) (g : GeoOutcome) (s : AppState) :
    AppState × List Eff :=
  match g with
  | .position lat lon => fetchWeather o lat lon none s
  | .permissionFailure => getLocationFromIP o s
  | .unsupported => getLocationFromIP o s

/-- Embeds `handleSearch`: blank input is a no-op; otherwise one
single-result search request, feeding the best match to `fetchWeather`,
with distinct not-found and search-failed alerts. -/
def handleSearch (o : Oracle) (s : AppState) : AppState × List Eff :=
  let cityName := jsTrim s.dom.searchInputValue
  if cityName = "" then (s, [])
  else
    match o.search cityName 1 with
    | .error _ =>
      (s, [.searchReq cityName 1,
        .alert "Failed to search for location. Please check your network."])
    | .ok none =>
      (s, [.searchReq cityName 1,
        .alert ("Location \"" ++ cityName ++
          "\" not found. Try a different name.")])
    | .ok (some results) =>
      match results with
      | [] =>
        (s, [.searchReq cityName 1,
          .alert ("Location \"" ++ cityName ++
            "\" not found. Try a different name.")])
      | first :: _ =>
        let formattedCityName := first.name ++ ", " ++ first.country
        let s1 : AppState := { s with dom := { s.dom with
          searchInputValue := formattedCityName, suggestions := [] } }
        let r := fetchWeather o first.latitude first.longitude
          (some formattedCityName) s1
        (r.1, .searchReq cityName 1 :: r.2)

/-- Embeds `fetchSuggestions`: one 5-result search request; a present
`results` field is rendered (render clears first, so an empty array
leaves the list empty), a missing field or a rejected call clears. -/
def fetchSuggestions (o : Oracle) (query : String) (s : AppState) :
    AppState × List Eff :=
  match o.search query 5 with
  | .error _ =>
    ({ s with dom := { s.dom with suggestions := [] } }, [.searchReq query 5])
  | .ok none =>
    ({ s with dom := { s.dom with suggestions := [] } }, [.searchReq query 5])
  | .ok (some results) =>
    ({ s with dom := { s.dom with suggestions := results } },
      [.searchReq query 5])

/-- Embeds `handleCityInput`: the debounced input handler; short queries
clear the candidates and issue nothing. -/
def handleCityInput (o : Oracle) (s : AppState) : AppState × List Eff :=
  let query := jsTrim s.dom.searchInputValue
  if query.length < 3 then
    ({ s with dom := { s.dom with suggestions := [] } }, [])
  else fetchSuggestions o query s

/-- One keystroke of the search field: when it happened and the full
field content at that moment. -/
structure InputEvent where
  time : ℕ
  value : String
deriving Repr, DecidableEq

/-- Embeds the `debounce` wrapper's timer behaviour over a time-sorted
keystroke burst: a keystroke's pending timer is cleared when the next
keystroke arrives strictly before it expires, so exactly the keystrokes
followed by a quiet period of at least `delay` (or by nothing) fire. -/
def debounceSurvivors (delay : ℕ) : List InputEvent → List InputEvent
  | [] => []
  | [e] => [e]
  | e :: e' :: rest =>
    if e'.time < e.time + delay then debounceSurvivors delay (e' :: rest)
    else e :: debounceSurvivors delay (e' :: rest)

/-- Every keystroke of the burst (except the last) is followed by the
next one within the debounce window. -/
def gapsSmall (delay : ℕ) : List InputEvent → Bool
  | e :: e' :: rest =>
    decide (e'.time < e.time + delay) && gapsSmall delay (e' :: rest)
  | _ => true

/-- The suggestion requests a keystroke burst issues: each surviving
keystroke runs `handleCityInput` on the field content it left behind. -/
def debouncedSearchEffs (delay : ℕ) (events : List InputEvent) : List Eff :=
  (debounceSurvivors delay events).filterMap fun e =>
    if (jsTrim e.value).length < 3 then none
    else some (.searchReq (jsTrim e.value) 5)

/-- Startup DOM (all areas empty, default indicator). -/
def initialDom : Dom :=
  { metricsArea := Sum.inl ""
    locationText := ""
    currentTempText := ""
    dailyCards := []
    hourlyCards := []
    suggestions := []
    searchInputValue := ""
    indicator := ⟨"celsius", "kmh", "mm"⟩ }

/-- Startup application state. -/
def initialState : AppState :=
  { UNITS := initialUnits, currentWeatherData := none, dom := initialDom }

/-- A concrete current-conditions block with `temperature_2m = 20`. -/
def sampleCurrent : CurrentW :=
  { time := "2026-01-01T00:00"
    temperature_2m := 20
    apparent_temperature := 18
    relative_humidity_2m := 50
    wind_speed_10m := 10
    precipitation := 1
    weather_code := 0 }

/-- A concrete snapshot holding `sampleCurrent`. -/
def sampleData : WeatherData :=
  { current := sampleCurrent
    daily := { time := [], temperature_2m_max := [], temperature_2m_min := [],
               weather_code := [] }
    hourly := { time := [], temperature_2m := [], weather_code := [] } }

/-- A state that holds `sampleData` as the current snapshot. -/
def sampleHeldState : AppState :=
  { initialState with currentWeatherData := some sampleData }

/-- An oracle on which every network request fails. -/
def failingOracle : Oracle :=
  { weather := .error ()
    ip := .error ()
    geo := .error ()
    search := fun _ _ => .error () }

/-- An oracle on which every request succeeds. -/
def happyOracle : Oracle :=
  { weather := .ok { ok := true, json := .ok sampleData }
    ip := .ok { latitude := 0, longitude := 0, city := some "Testville" }
    geo := .ok { city := none, locality := none, countryName := none }
    search := fun _ _ => .ok (some []) }

/-- C5: the code-to-category classification follows the fixed table:
0 → clear (`sunny`), 1–2 → partly cloudy (`partCloud`), 3 → cloudy,
45/48 → foggy, 51/53/55/56/57 → rainy, 61/63/65/66/67/80/81/82 → stormy,
71/73/75/77/85/86 → snowy, 95/96/99 → windy/thunderstorm (`windy`), and
every other integer code → the partly-cloudy default. -/
theorem getWeatherIconClass_table (code : ℤ) :
    (code = 0 → getWeatherIconClass code = "sunny") ∧
    (code = 1 ∨ code = 2 → getWeatherIconClass code = "partCloud") ∧
    (code = 3 → getWeatherIconClass code = "cloudy") ∧
    (code = 45 ∨ code = 48 → getWeatherIconClass code = "foggy") ∧
    (code ∈ ([51, 53, 55, 56, 57] : List ℤ) →
      getWeatherIconClass code = "rainy") ∧
    (code ∈ ([61, 63, 65, 66, 67, 80, 81, 82] : List ℤ) →
      getWeatherIconClass code = "stormy") ∧
    (code ∈ ([71, 73, 75, 77, 85, 86] : List ℤ) →
      getWeatherIconClass code = "snowy") ∧
    (code ∈ ([95, 96, 99] : List ℤ) →
      getWeatherIconClass code = "windy") ∧
    (code ∉ listedWeatherCodes → getWeatherIconClass code = "partCloud") := by
  refine ⟨?_, ?_, ?_, ?_, ?_, ?_, ?_, ?_, ?_⟩
  · rintro rfl; rfl
  · rintro (rfl | rfl) <;> rfl
  · rintro rfl; rfl
  · rintro (rfl | rfl) <;> rfl
  · intro h
    simp only [List.mem_cons, List.not_mem_nil, or_false] at h
    rcases h with rfl | rfl | rfl | rfl | rfl <;> rfl
  · intro h
    simp only [List.mem_cons, List.not_mem_nil, or_false] at h
    rcases h with rfl | rfl | rfl | rfl | rfl | rfl | rfl | rfl <;> rfl
  · intro h
    simp only [List.mem_cons, List.not_mem_nil, or_false] at h
    rcases h with rfl | rfl | rfl | rfl | rfl | rfl <;> rfl
  · intro h
    simp only [List.mem_cons, List.not_mem_nil, or_false] at h
    rcases h with rfl | rfl | rfl <;> rfl
  · intro h
    simp only [listedWeatherCodes, List.mem_cons, List.not_mem_nil, or_false,
      not_or] at h
    obtain ⟨h0, h1, h2, h3, h45, h48, h51, h53, h55, h56, h57, h61, h63, h65,
      h66, h67, h80, h81, h82, h71, h73, h75, h77, h85, h86, h95, h96, h99⟩ := h
    simp [getWeatherIconClass, h0, h1, h2, h3, h45, h48, h51, h53, h55, h56,
      h57, h61, h63, h65, h66, h67, h80, h81, h82, h71, h73, h75, h77, h85,
      h86, h95, h96, h99]

/-- Concrete instances of the classification table: 63 is stormy, 0 is
clear, and the unknown code 100 falls to the partly-cloudy default. -/
theorem getWeatherIconClass_table_witness :
    getWeatherIconClass 63 = "stormy" ∧ getWeatherIconClass 0 = "sunny" ∧
      getWeatherIconClass 100 = "partCloud" :=
  ⟨(getWeatherIconClass_table 63).2.2.2.2.2.1 (by decide),
   (getWeatherIconClass_table 0).1 rfl,
   (getWeatherIconClass_table 100).2.2.2.2.2.2.2.2 (by decide)⟩

/-- C6: the three unit converters compute exactly
Fahrenheit = Celsius × 9/5 + 32, mph = km/h × 0.621371 and
inches = mm × 0.0393701 on every input (no other converters are defined
by the source). -/
theorem converters_formulas (c kmh mm : ℚ) :
    toFahrenheit c = c * (9 / 5) + 32 ∧
    toMph kmh = kmh * 0.621371 ∧
    toInches mm = mm * 0.0393701 := by
  refine ⟨?_, rfl, rfl⟩
  unfold toFahrenheit
  ring

/-- C8: each conversion composed with its mathematical inverse returns
the original value (exactly, over ℚ — hence within any floating-point
tolerance): (toFahrenheit c − 32) × 5/9 = c, toMph k ÷ 0.621371 = k,
toInches m ÷ 0.0393701 = m. -/
theorem converters_round_trip (c kmh mm : ℚ) :
    (toFahrenheit c - 32) * 5 / 9 = c ∧
    toMph kmh / 0.621371 = kmh ∧
    toInches mm / 0.0393701 = mm := by
  refine ⟨?_, ?_, ?_⟩
  · unfold toFahrenheit; ring
  · unfold toMph
    rw [mul_div_assoc, div_self (by norm_num), mul_one]
  · unfold toInches
    rw [mul_div_assoc, div_self (by norm_num), mul_one]

theorem jsOr_ne_empty (a : Option String) (b : String) (hb : b ≠ "") :
    jsOr a b ≠ "" := by
  unfold jsOr
  cases a with
  | none => exact hb
  | some s =>
    show (if s = "" then b else s) ≠ ""
    by_cases hs : s = ""
    · rw [if_pos hs]; exact hb
    · rw [if_neg hs]; exact hs

theorem trimLeftL_append_of_head (l m : List Char) (c : Char)
    (h : l.head? = some c) (hc : c.isWhitespace = false) :
    trimLeftL (l ++ m) = l ++ m := by
  cases l with
  | nil => simp at h
  | cons x xs =>
    simp only [List.head?_cons, Option.some.injEq] at h
    subst h
    simp [trimLeftL, List.dropWhile_cons, hc]

theorem trimRightL_append_comma_space (l : List Char) :
    trimRightL (l ++ [',', ' ']) = l ++ [','] := by
  unfold trimRightL
  have h1 : (l ++ [',', ' ']).reverse = ' ' :: ',' :: l.reverse := by simp
  rw [h1, List.dropWhile_cons, if_pos (by decide), List.dropWhile_cons,
    if_neg (by decide)]
  simp

theorem trimRightL_append_of_last (l m : List Char) (c : Char)
    (h : m.getLast? = some c) (hc : c.isWhitespace = false) :
    trimRightL (l ++ m) = l ++ m := by
  unfold trimRightL
  rw [List.reverse_append]
  have hh : m.reverse.head? = some c := by rw [List.head?_reverse]; exact h
  cases hm : m.reverse with
  | nil => simp [hm] at hh
  | cons x xs =>
    rw [hm] at hh
    simp only [List.head?_cons, Option.some.injEq] at hh
    subst hh
    rw [List.cons_append, List.dropWhile_cons, if_neg (by simp [hc])]
    rw [← List.cons_append, ← hm, List.reverse_append]
    simp

theorem headNotWs_elim (s : String) (hs : headNotWs s = true) (hne : s ≠ "") :
    ∃ c t, s.data = c :: t ∧ c.isWhitespace = false := by
  have hdata : s.data ≠ [] := fun hd => hne (String.ext hd)
  cases hd : s.data with
  | nil => exact absurd hd hdata
  | cons c t =>
    refine ⟨c, t, rfl, ?_⟩
    unfold headNotWs at hs
    rw [hd] at hs
    simpa using hs

theorem lastClean_elim (s : String) (hs : lastClean s = true) (hne : s ≠ "") :
    ∃ c, s.data.getLast? = some c ∧ c.isWhitespace = false ∧ c ≠ ',' := by
  have hdata : s.data ≠ [] := fun hd => hne (String.ext hd)
  cases hd : s.data.getLast? with
  | none => exact absurd (List.getLast?_eq_none_iff.mp hd) hdata
  | some c =>
    refine ⟨c, rfl, ?_⟩
    unfold lastClean at hs
    rw [hd] at hs
    simpa using hs

/-- C4: the resolved display name takes the city name, else the locality
name, else the sentinel "Unknown Location", appending the country after a
comma when available and trimming the trailing comma when the country is
missing (proved as equality with the claim-side `claimedGeoName` for all
responses whose present fields do not start with whitespace nor end in
whitespace or a comma); in particular `{city: null, locality: "Sector 5",
countryName: "Testland"}` yields `"Sector 5, Testland"` and all-null
yields `"Unknown Location"`; a failed reverse-geocoding call yields the
sentinel rather than failing. -/
theorem reverseGeocode_name_selection :
    (∀ g : GeoData,
      headNotWs (jsOr g.city (jsOr g.locality "Unknown Location")) = true →
      lastClean (jsOr g.countryName "") = true →
      resolveGeoName g = claimedGeoName g) ∧
    resolveGeoName ⟨none, some "Sector 5", some "Testland"⟩
      = "Sector 5, Testland" ∧
    resolveGeoName ⟨none, none, none⟩ = "Unknown Location" ∧
    (∀ lat lon : ℚ, reverseGeocode (.error ()) lat lon
      = ("Unknown Location", [.geoReq lat lon])) := by
  refine ⟨?_, by decide, by decide, fun lat lon => rfl⟩
  intro g hbase hk
  set base := jsOr g.city (jsOr g.locality "Unknown Location") with hbase_def
  set k := jsOr g.countryName "" with hk_def
  have hbne : base ≠ "" := by
    rw [hbase_def]
    exact jsOr_ne_empty _ _ (jsOr_ne_empty _ _ (by decide))
  obtain ⟨c, t, hct, hcw⟩ := headNotWs_elim base hbase hbne
  unfold resolveGeoName claimedGeoName
  rw [← hbase_def, ← hk_def]
  by_cases hke : k = ""
  · rw [if_pos hke, hke]
    have hdata : (base ++ ", " ++ "").data = base.data ++ [',', ' '] := by
      simp [String.data_append]
    apply String.ext
    unfold dropTrailingComma jsTrim
    rw [hdata,
      trimLeftL_append_of_head base.data [',', ' '] c (by rw [hct]; rfl) hcw,
      trimRightL_append_comma_space]
    simp
  · rw [if_neg hke]
    obtain ⟨d, hd, hdw, hdc⟩ := lastClean_elim k hk hke
    have hkdata : k.data ≠ [] := fun h0 => hke (String.ext h0)
    have hdata : (base ++ ", " ++ k).data
        = base.data ++ ([',', ' '] ++ k.data) := by
      simp [String.data_append]
    apply String.ext
    unfold dropTrailingComma jsTrim
    rw [hdata,
      trimLeftL_append_of_head base.data ([',', ' '] ++ k.data) c
        (by rw [hct]; rfl) hcw,
      ← List.append_assoc,
      trimRightL_append_of_last (base.data ++ [',', ' ']) k.data d hd hdw]
    have hlast : ((base.data ++ [',', ' ']) ++ k.data).getLast? = some d := by
      rw [List.getLast?_append, hd]; rfl
    rw [hlast]
    simp only [Option.some.injEq]
    rw [if_neg (by simpa using hdc)]

/-- Instance of C4's general clause at a concrete clean response. -/
theorem reverseGeocode_name_selection_witness :
    resolveGeoName ⟨some "Paris", none, some "France"⟩
      = claimedGeoName ⟨some "Paris", none, some "France"⟩ :=
  reverseGeocode_name_selection.1 ⟨some "Paris", none, some "France"⟩
    (by decide) (by decide)

/-- C10: the hourly strip renders exactly min(24, length of the hourly
time series) hour cards: capped at 24 when the fetched series is longer,
all entries when it is shorter. -/
theorem renderHourlyForecast_card_count (u : Units) (hourly : HourlyW) :
    (hourlyCardsOf u hourly).length = min 24 hourly.time.length := by
  simp [hourlyCardsOf]

/-- C9: submitting the search field with empty or whitespace-only input
is a no-op: `handleSearch` issues no request, shows no notice, and
returns the state unchanged. -/
theorem handleSearch_blank_noop (o : Oracle) (s : AppState)
    (h : jsTrim s.dom.searchInputValue = "") :
    handleSearch o s = (s, []) := by
  simp [handleSearch, h]

/-- Instance of C9 at a whitespace-only search field. -/
theorem handleSearch_blank_noop_witness :
    handleSearch failingOracle
      { initialState with dom := { initialDom with searchInputValue := "   " } }
      = ({ initialState with
            dom := { initialDom with searchInputValue := "   " } }, []) :=
  handleSearch_blank_noop failingOracle _ (by decide)

/-- C2: a rejected fetch, a non-success HTTP status, or a failed body
read is a hard failure for that `fetchWeather` call: the stored snapshot
(`currentWeatherData`) is unchanged, nothing of the new data is rendered
(only the metrics area is replaced by the error text, signalling the
failure), and only the one forecast request was issued. -/
theorem fetchWeather_failure_frame (o : Oracle) (lat lon : ℚ)
    (cityName : Option String) (s : AppState)
    (h : o.weather = .error () ∨
      ∃ resp, o.weather = .ok resp ∧
        (resp.ok = false ∨ resp.json = .error ())) :
    fetchWeather o lat lon cityName s
      = ({ s with dom := { s.dom with metricsArea := Sum.inl weatherFailMsg } },
          [.weatherReq lat lon]) := by
  rcases h with h | ⟨resp, hresp, hfail⟩
  · simp [fetchWeather, h]
  · rcases hfail with hok | hjson
    · simp [fetchWeather, hresp, hok]
    · by_cases hok : resp.ok = false
      · simp [fetchWeather, hresp, hok]
      · simp [fetchWeather, hresp, hok, hjson]

/-- Instance of C2 at a rejected forecast fetch. -/
theorem fetchWeather_failure_frame_witness :
    fetchWeather failingOracle 0 0 none initialState
      = ({ initialState with
            dom := { initialState.dom with
              metricsArea := Sum.inl weatherFailMsg } },
          [.weatherReq 0 0]) :=
  fetchWeather_failure_frame failingOracle 0 0 none initialState (Or.inl rfl)

/-- C1: for a valid unit group, `setUnit` issues no network request,
updates the stored preference and the active-unit indicator, leaves the
snapshot itself untouched, and, when a snapshot is held, recomputes every
affected displayed value from it with the new preferences — the current
temperature text (so a held `temperature_2m 20` with fahrenheit selected
renders as `68°`, see the witness), the metrics cards (feels-like, wind
and precipitation values with their unit labels), and the daily and
hourly cards; with no held snapshot nothing is re-rendered but the
preference and the indicator are still updated. -/
theorem setUnit_rerender_contract (s : AppState) (t v key : String)
    (hk : stateKey t = some key) :
    (setUnit t v s).2 = [] ∧
    (setUnit t v s).1.UNITS = setUnitsField s.UNITS key v ∧
    (setUnit t v s).1.dom.indicator
      = updateUnitDropdownUI t v s.dom.indicator ∧
    (setUnit t v s).1.currentWeatherData = s.currentWeatherData ∧
    (∀ d, s.currentWeatherData = some d →
      (setUnit t v s).1.dom.currentTempText
        = toString (jsRound
            (if (setUnitsField s.UNITS key v).TEMPERATURE = "fahrenheit"
              then toFahrenheit d.current.temperature_2m
              else d.current.temperature_2m)) ++ "°" ∧
      (setUnit t v s).1.dom.metricsArea = Sum.inr
        { feelsLike := jsRound
            (if (setUnitsField s.UNITS key v).TEMPERATURE = "fahrenheit"
              then toFahrenheit d.current.apparent_temperature
              else d.current.apparent_temperature)
          humidity := d.current.relative_humidity_2m
          windVal := if (setUnitsField s.UNITS key v).WIND = "mph"
            then toMph d.current.wind_speed_10m else d.current.wind_speed_10m
          windUnit := if (setUnitsField s.UNITS key v).WIND = "mph"
            then "mph" else "km/h"
          precVal := if (setUnitsField s.UNITS key v).PRECIPITATION = "inches"
            then toInches d.current.precipitation else d.current.precipitation
          precUnit := if (setUnitsField s.UNITS key v).PRECIPITATION = "inches"
            then "in" else "mm" } ∧
      (setUnit t v s).1.dom.dailyCards
        = dailyCardsOf (setUnitsField s.UNITS key v) d.daily ∧
      (setUnit t v s).1.dom.hourlyCards
        = hourlyCardsOf (setUnitsField s.UNITS key v) d.hourly) ∧
    (s.currentWeatherData = none →
      (setUnit t v s).1.dom
        = { s.dom with
            indicator := updateUnitDropdownUI t v s.dom.indicator }) := by
  cases hd : s.currentWeatherData with
  | none =>
    refine ⟨?_, ?_, ?_, ?_, ?_, ?_⟩ <;>
      simp [setUnit, hk, hd]
  | some d =>
    refine ⟨?_, ?_, ?_, ?_, ?_, ?_⟩ <;>
      simp [setUnit, hk, hd, renderWeather, renderCurrentWeather]

/-- Instance of C1 at a held snapshot with `temperature_2m = 20` and the
fahrenheit selection: renders `68°` and issues no request. -/
theorem setUnit_rerender_contract_witness :
    (setUnit "temp" "fahrenheit" sampleHeldState).1.dom.currentTempText
      = "68°" ∧
    (setUnit "temp" "fahrenheit" sampleHeldState).2 = [] := by
  have h := setUnit_rerender_contract sampleHeldState "temp" "fahrenheit"
    "TEMPERATURE" (by decide)
  refine ⟨?_, h.1⟩
  have h5 := (h.2.2.2.2.1 sampleData rfl).1
  rw [h5]
  have h68 : (if (setUnitsField sampleHeldState.UNITS "TEMPERATURE"
        "fahrenheit").TEMPERATURE = "fahrenheit"
      then toFahrenheit sampleData.current.temperature_2m
      else sampleData.current.temperature_2m) = 68 := by
    norm_num [setUnitsField, sampleHeldState, initialState, initialUnits,
      sampleData, sampleCurrent, toFahrenheit]
  rw [h68]
  have hr : jsRound 68 = 68 := by
    unfold jsRound
    exact Int.floor_eq_iff.mpr (by norm_num)
  rw [hr]
  rfl

theorem reverseGeocode_effs (g : Except Unit GeoData) (lat lon : ℚ) :
    (reverseGeocode g lat lon).2 = [.geoReq lat lon] := by
  cases g <;> rfl

theorem fetchWeather_effs_shape (o : Oracle) (lat lon : ℚ)
    (cityName : Option String) (s : AppState) :
    (fetchWeather o lat lon cityName s).2 = [.weatherReq lat lon] ∨
    ((fetchWeather o lat lon cityName s).2
        = [.weatherReq lat lon, .geoReq lat lon] ∧
      strFalsy cityName = true) := by
  unfold fetchWeather
  cases hw : o.weather with
  | error e => left; rfl
  | ok resp =>
    by_cases hok : resp.ok = false
    · left; simp [hok]
    · cases hj : resp.json with
      | error e => left; simp [hok, hj]
      | ok data =>
        by_cases hcf : strFalsy cityName = true
        · right
          refine ⟨?_, hcf⟩
          simp [hok, hj, hcf, reverseGeocode_effs]
        · left
          simp [hok, hj, Bool.of_not_eq_true hcf]

theorem fetchWeather_effs_of_truthy (o : Oracle) (lat lon : ℚ)
    (cityName : Option String) (s : AppState)
    (h : strFalsy cityName = false) :
    (fetchWeather o lat lon cityName s).2 = [.weatherReq lat lon] := by
  rcases fetchWeather_effs_shape o lat lon cityName s with h1 | ⟨h1, h2⟩
  · exact h1
  · rw [h2] at h; cases h

theorem fetchWeather_metricsArea_ne_location (o : Oracle) (lat lon : ℚ)
    (cityName : Option String) (s : AppState) :
    (fetchWeather o lat lon cityName s).1.dom.metricsArea
      ≠ Sum.inl locationFailMsg := by
  unfold fetchWeather
  cases hw : o.weather with
  | error e => simp; decide
  | ok resp =>
    by_cases hok : resp.ok = false
    · simp [hok]; decide
    · cases hj : resp.json with
      | error e => simp [hok, hj]; decide
      | ok data =>
        by_cases hcf : strFalsy cityName = true
        · simp [hok, hj, hcf, renderWeather, renderCurrentWeather]
        · simp [hok, hj, Bool.of_not_eq_true hcf, renderWeather,
            renderCurrentWeather]

/-- C3: on either geolocation failure mode the resolver invokes the
IP-lookup path exactly once and never calls the search API; a successful
IP lookup with a truthy city supplies the display name, so no
reverse-geocoding request is issued; and the location-failure notice is
shown exactly when the IP lookup also fails (every failure is handled
locally — the resolver is a total function). -/
theorem locationResolver_fallback (o : Oracle) (s : AppState)
    (g : GeoOutcome)
    (hg : g = .permissionFailure ∨ g = .unsupported) :
    List.count Eff.ipReq (getUserLocation o g s).2 = 1 ∧
    (∀ q n, Eff.searchReq q n ∉ (getUserLocation o g s).2) ∧
    (∀ d, o.ip = .ok d → strFalsy d.city = false →
      ∀ la lo, Eff.geoReq la lo ∉ (getUserLocation o g s).2) ∧
    ((getUserLocation o g s).1.dom.metricsArea = Sum.inl locationFailMsg ↔
      o.ip = .error ()) := by
  have hgu : getUserLocation o g s = getLocationFromIP o s := by
    rcases hg with rfl | rfl <;> rfl
  rw [hgu]
  unfold getLocationFromIP
  cases hip : o.ip with
  | error e =>
    refine ⟨by simp, by simp, ?_, by simp⟩
    intro d hd
    simp at hd
  | ok d =>
    refine ⟨?_, ?_, ?_, ?_⟩
    · show List.count Eff.ipReq
        (Eff.ipReq :: (fetchWeather o d.latitude d.longitude d.city s).2) = 1
      rcases fetchWeather_effs_shape o d.latitude d.longitude d.city s
        with h1 | ⟨h1, _⟩ <;> simp [h1, List.count_cons]
    · intro q n
      show Eff.searchReq q n ∉
        Eff.ipReq :: (fetchWeather o d.latitude d.longitude d.city s).2
      rcases fetchWeather_effs_shape o d.latitude d.longitude d.city s
        with h1 | ⟨h1, _⟩ <;> simp [h1]
    · intro d' hd' hcity la lo
      have hdd : d' = d := (Except.ok.inj hd').symm
      subst hdd
      show Eff.geoReq la lo ∉
        Eff.ipReq :: (fetchWeather o d'.latitude d'.longitude d'.city s).2
      rw [fetchWeather_effs_of_truthy o d'.latitude d'.longitude d'.city s
        hcity]
      simp
    · constructor
      · intro hcon
        exact absurd hcon
          (fetchWeather_metricsArea_ne_location o d.latitude d.longitude
            d.city s)
      · intro hcon
        simp at hcon

/-- Instance of C3: permission-denied geolocation with a failing IP
lookup. -/
theorem locationResolver_fallback_witness :
    List.count Eff.ipReq
      (getUserLocation failingOracle .permissionFailure initialState).2 = 1 ∧
    (∀ q n, Eff.searchReq q n ∉
      (getUserLocation failingOracle .permissionFailure initialState).2) ∧
    (∀ d, failingOracle.ip = .ok d → strFalsy d.city = false →
      ∀ la lo, Eff.geoReq la lo ∉
        (getUserLocation failingOracle .permissionFailure initialState).2) ∧
    ((getUserLocation failingOracle .permissionFailure
        initialState).1.dom.metricsArea = Sum.inl locationFailMsg ↔
      failingOracle.ip = .error ()) :=
  locationResolver_fallback failingOracle initialState .permissionFailure
    (Or.inl rfl)

theorem debounceSurvivors_of_gapsSmall (delay : ℕ) :
    ∀ (events : List InputEvent) (e : InputEvent),
      events.getLast? = some e → gapsSmall delay events = true →
      debounceSurvivors delay events = [e] := by
  intro events
  induction events with
  | nil => intro e he _; simp at he
  | cons a tail ih =>
    intro e he hg
    cases tail with
    | nil =>
      simp only [List.getLast?_singleton, Option.some.injEq] at he
      rw [← he]
      rfl
    | cons b rest =>
      have hg2 : (decide (b.time < a.time + delay) &&
          gapsSmall delay (b :: rest)) = true := hg
      rw [Bool.and_eq_true] at hg2
      have hgap : b.time < a.time + delay := of_decide_eq_true hg2.1
      have he' : (b :: rest).getLast? = some e := by
        rw [← List.getLast?_cons_cons]
        exact he
      unfold debounceSurvivors
      rw [if_pos hgap]
      exact ih e he' hg2.2

/-- C7: a settled query below 3 characters issues no suggestion request
and clears the candidates; over a keystroke burst in which every
intervening keystroke arrives within the debounce window and the final
settled query has at least 3 characters, exactly one suggestion request
is issued, for that query with a 5-candidate limit; every issued
suggestion request asks for 5 candidates and carries a query of length at
least 3; and empty (or missing) results clear the candidate list. -/
theorem searchSuggestions_contract :
    (∀ (o : Oracle) (s : AppState),
      (jsTrim s.dom.searchInputValue).length < 3 →
      handleCityInput o s
        = ({ s with dom := { s.dom with suggestions := [] } }, [])) ∧
    (∀ (delay : ℕ) (events : List InputEvent) (e : InputEvent),
      events.getLast? = some e → gapsSmall delay events = true →
      3 ≤ (jsTrim e.value).length →
      debouncedSearchEffs delay events
        = [.searchReq (jsTrim e.value) 5]) ∧
    (∀ (delay : ℕ) (events : List InputEvent) (q : String) (n : ℕ),
      Eff.searchReq q n ∈ debouncedSearchEffs delay events →
      n = 5 ∧ 3 ≤ q.length) ∧
    (∀ (o : Oracle) (q : String) (s : AppState),
      o.search q 5 = .ok (some []) ∨ o.search q 5 = .ok none →
      (fetchSuggestions o q s).1.dom.suggestions = []) := by
  refine ⟨?_, ?_, ?_, ?_⟩
  · intro o s h
    simp [handleCityInput, h]
  · intro delay events e he hg hlen
    unfold debouncedSearchEffs
    rw [debounceSurvivors_of_gapsSmall delay events e he hg]
    simp [List.filterMap, Nat.not_lt.mpr hlen]
  · intro delay events q n hmem
    unfold debouncedSearchEffs at hmem
    rw [List.mem_filterMap] at hmem
    obtain ⟨ev, _, hfe⟩ := hmem
    by_cases hlen : (jsTrim ev.value).length < 3
    · rw [if_pos hlen] at hfe; cases hfe
    · rw [if_neg hlen] at hfe
      have hinj := Option.some.inj hfe
      cases hinj
      exact ⟨rfl, Nat.not_lt.mp hlen⟩
  · intro o q s h
    rcases h with h | h <;> simp [fetchSuggestions, h]

/-- Instance of C7: a burst of three keystrokes 100ms apart settles into
exactly one 5-candidate request for the final trimmed query. -/
theorem searchSuggestions_contract_witness :
    debouncedSearchEffs 300
        [⟨0, "Lo"⟩, ⟨100, "Lond"⟩, ⟨200, "London "⟩]
      = [.searchReq "London" 5] := by
  have h := searchSuggestions_contract.2.1 300
    [⟨0, "Lo"⟩, ⟨100, "Lond"⟩, ⟨200, "London "⟩] ⟨200, "London "⟩
    rfl (by decide) (by decide)
  rw [h]
  decide

end WeatherApp
